import Mathlib

/-!
Shallow embedding of the organization-mfe backend (src/backend/src/index.js).

The backend is an Express application over a SQLite table `organizations`.
We model the table as a list of rows in insertion order, each prepared SQL
statement as a pure function on that list, and each route handler as a
function from the incoming request data and the current store to the pair
of an HTTP response and the resulting store.  The JWT verifier is an
abstract parameter: a function from the token string to an optional claims
record, standing for `jwt.verify` which either returns the decoded payload
or throws.
-/

/-- One row of the `organizations` table (schema at index.js lines 27 to 43).
`created_at` defaults to the insertion time and `updated_at` to NULL. -/
structure Org where
  id : String
  tenant_id : String
  name : String
  org_number : String
  address : String
  city : String
  zip : String
  phone : String
  email : String
  website : String
  description : String
  created_at : String
  updated_at : Option String
deriving DecidableEq

/-- The table contents, in rowid (insertion) order. -/
abbrev Store := List Org

/-- Model of the JavaScript `String.prototype.trim`: remove leading and
trailing whitespace.  Written over the character list so that it reduces
inside the kernel. -/
def jsTrim (s : String) : String :=
  ⟨((s.data.dropWhile Char.isWhitespace).reverse.dropWhile Char.isWhitespace).reverse⟩

/-- Model of the JavaScript defaulting expression on an optional string
field destructured from the request body, `x` or-else the empty string:
an absent field and the empty string both collapse to the empty string. -/
def orEmpty (x : Option String) : String := x.getD ""

/-- Model of the guard `!name || !name.trim()` (index.js lines 76 and 91):
true when the field is absent, empty, or trims to the empty string. -/
def nameInvalid : Option String → Bool
  | none => true
  | some s => s == "" || jsTrim s == ""

/-- Comparison used to model `ORDER BY name`: lexicographic order on the
code point sequences of the two names. -/
def nameLe (a b : Org) : Prop := a.name.data ≤ b.name.data

instance : DecidableRel nameLe :=
  fun a b => inferInstanceAs (Decidable (a.name.data ≤ b.name.data))

instance : IsTotal Org nameLe := ⟨fun a b => le_total a.name.data b.name.data⟩

instance : IsTrans Org nameLe := ⟨fun _ _ _ h1 h2 => le_trans h1 h2⟩

/-- Model of `SELECT * FROM organizations WHERE tenant_id = ? ORDER BY name`
(index.js line 62). -/
def selectByTenant (s : Store) (t : String) : List Org :=
  List.insertionSort nameLe (s.filter (fun o => o.tenant_id == t))

/-- Model of `SELECT * FROM organizations WHERE id = ? AND tenant_id = ?`
(index.js lines 68, 88 and 102); `.get` returns the first matching row. -/
def selectByIdTenant (s : Store) (i t : String) : Option Org :=
  s.find? (fun o => o.id == i && o.tenant_id == t)

/-- Model of `SELECT * FROM organizations WHERE id = ?`
(index.js lines 82 and 96). -/
def selectById (s : Store) (i : String) : Option Org :=
  s.find? (fun o => o.id == i)

/-- Model of `DELETE FROM organizations WHERE id = ? AND tenant_id = ?`
(index.js line 104). -/
def deleteByIdTenant (s : Store) (i t : String) : Store :=
  s.filter (fun o => !(o.id == i && o.tenant_id == t))

/-- Model of the UPDATE statement scaffold (index.js lines 92 to 95): apply
a field transformation to every row matching id and tenant. -/
def updateByIdTenant (s : Store) (i t : String) (f : Org → Org) : Store :=
  s.map (fun o => if o.id == i && o.tenant_id == t then f o else o)

/-- Request body of POST and PUT, as destructured on index.js lines 75
and 90.  Note there is no tenant field: the handlers never read a tenant
from the payload. -/
structure Body where
  name : Option String
  org_number : Option String
  address : Option String
  city : Option String
  zip : Option String
  phone : Option String
  email : Option String
  website : Option String
  description : Option String
deriving DecidableEq

/-- JSON response bodies the handlers produce. -/
inductive RespBody where
  /-- The organizations-array body of the list route. -/
  | orgList (orgs : List Org)
  /-- A single row, returned by get, post and put. -/
  | org (o : Org)
  /-- The ok-true body of the delete route. -/
  | okTrue
  /-- The error-message shape of every error body. -/
  | errMsg (msg : String)
  /-- Result of `res.json(x)` with `x` undefined; unreachable in practice. -/
  | jsUndefined
deriving DecidableEq

/-- An HTTP response: status code plus JSON body. -/
structure Resp where
  status : Nat
  body : RespBody
deriving DecidableEq

/-- The 404 response produced on index.js lines 69, 89 and 103. -/
def notFound : Resp := ⟨404, .errMsg "Not found"⟩

/-- Handler of GET /organizations (index.js lines 60 to 64). -/
def listHandler (s : Store) (tenantId : String) : Resp × Store :=
  (⟨200, .orgList (selectByTenant s tenantId)⟩, s)

/-- Handler of GET /organizations/:id (index.js lines 67 to 71). -/
def getHandler (s : Store) (tenantId i : String) : Resp × Store :=
  match selectByIdTenant s i tenantId with
  | none => (notFound, s)
  | some o => (⟨200, .org o⟩, s)

/-- The row inserted by POST (index.js lines 78 to 81): id is the fresh
uuid, tenant from the authenticated caller, name trimmed, optional fields
defaulted to the empty string, `created_at` stamped by the database and
`updated_at` NULL. -/
def newRow (tenantId : String) (b : Body) (freshId now : String) : Org :=
  { id := freshId
    tenant_id := tenantId
    name := jsTrim (orEmpty b.name)
    org_number := orEmpty b.org_number
    address := orEmpty b.address
    city := orEmpty b.city
    zip := orEmpty b.zip
    phone := orEmpty b.phone
    email := orEmpty b.email
    website := orEmpty b.website
    description := orEmpty b.description
    created_at := now
    updated_at := none }

/-- Handler of POST /organizations (index.js lines 74 to 84).  `freshId`
stands for the generated uuid and `now` for the database clock. -/
def postHandler (s : Store) (tenantId : String) (b : Body) (freshId now : String) :
    Resp × Store :=
  if nameInvalid b.name then (⟨400, .errMsg "Namn krävs"⟩, s)
  else
    let s2 := s ++ [newRow tenantId b freshId now]
    match selectById s2 freshId with
    | none => (⟨201, .jsUndefined⟩, s2)
    | some o => (⟨201, .org o⟩, s2)

/-- Field replacement performed by the UPDATE statement (index.js lines 92
to 95): every mutable column is overwritten from the body, `updated_at` is
stamped, and id, tenant and `created_at` are untouched. -/
def applyPut (b : Body) (now : String) (o : Org) : Org :=
  { o with
    name := jsTrim (orEmpty b.name)
    org_number := orEmpty b.org_number
    address := orEmpty b.address
    city := orEmpty b.city
    zip := orEmpty b.zip
    phone := orEmpty b.phone
    email := orEmpty b.email
    website := orEmpty b.website
    description := orEmpty b.description
    updated_at := some now }

/-- Handler of PUT /organizations/:id (index.js lines 87 to 98). -/
def putHandler (s : Store) (tenantId i : String) (b : Body) (now : String) :
    Resp × Store :=
  match selectByIdTenant s i tenantId with
  | none => (notFound, s)
  | some _ =>
    if nameInvalid b.name then (⟨400, .errMsg "Namn krävs"⟩, s)
    else
      let s2 := updateByIdTenant s i tenantId (applyPut b now)
      match selectById s2 i with
      | none => (⟨200, .jsUndefined⟩, s2)
      | some o => (⟨200, .org o⟩, s2)

/-- Handler of DELETE /organizations/:id (index.js lines 101 to 106). -/
def deleteHandler (s : Store) (tenantId i : String) : Resp × Store :=
  match selectByIdTenant s i tenantId with
  | none => (notFound, s)
  | some _ => (⟨200, .okTrue⟩, deleteByIdTenant s i tenantId)

/-- Decoded JWT payload; the routes read exactly one claim, `tenantId`
(index.js lines 61, 68, 81 and so on). -/
structure TokenClaims where
  tenantId : String
deriving DecidableEq

/-- Remove the first occurrence of `pat` from a character list: model of
the JavaScript `String.prototype.replace` with a string pattern and empty
replacement. -/
def removeFirst (pat : List Char) : List Char → List Char
  | [] => []
  | a :: as => if pat.isPrefixOf (a :: as) then (a :: as).drop pat.length
               else a :: removeFirst pat as

/-- Model of `header.replace(..., ...)` stripping the Bearer marker from the
Authorization header (index.js line 49). -/
def dropBearer (h : String) : String := ⟨removeFirst "Bearer ".data h.data⟩

/-- One routed request, after Express matching. -/
inductive Req where
  | listOrgs
  | getOrg (i : String)
  | postOrg (b : Body)
  | putOrg (i : String) (b : Body)
  | deleteOrg (i : String)
deriving DecidableEq

/-- Full pipeline of one request: the `auth` middleware (index.js lines 46
to 57) followed by the matched route handler.  `verify` abstracts
`jwt.verify`: `none` models a thrown verification error (malformed,
expired or bad signature token). -/
def handle (verify : String → Option TokenClaims) (authHeader : Option String)
    (req : Req) (s : Store) (freshId now : String) : Resp × Store :=
  match authHeader with
  | none => (⟨401, .errMsg "No token provided"⟩, s)
  | some h =>
    match verify (dropBearer h) with
    | none => (⟨401, .errMsg "Invalid token"⟩, s)
    | some claims =>
      match req with
      | .listOrgs => listHandler s claims.tenantId
      | .getOrg i => getHandler s claims.tenantId i
      | .postOrg b => postHandler s claims.tenantId b freshId now
      | .putOrg i b => putHandler s claims.tenantId i b now
      | .deleteOrg i => deleteHandler s claims.tenantId i

/-- Forget the `updated_at` stamp of a row; used to state properties that
hold in all fields except `updated_at`. -/
def eraseUpdatedAt (o : Org) : Org := { o with updated_at := none }

/-! ### Sample data used by the witnesses -/

/-- Body carrying only a name. -/
def bName (n : String) : Body := ⟨some n, none, none, none, none, none, none, none, none⟩

/-- Body of the spec scenario: name Acme AB and city Stockholm. -/
def bAcme : Body := ⟨some "Acme AB", none, none, some "Stockholm", none, none, none, none, none⟩

/-- A row of tenant t1. -/
def rowA : Org := newRow "t1" (bName "Acme") "a1" "T0"

/-- A row of tenant t2. -/
def rowB : Org := newRow "t2" (bName "Beta") "b1" "T0"

/-- Rows named Zeta, Alpha and Mid under tenant t1, for the ordering scenario. -/
def rowZ : Org := newRow "t1" (bName "Zeta") "z1" "T0"

/-- Second row of the ordering scenario. -/
def rowAl : Org := newRow "t1" (bName "Alpha") "al1" "T0"

/-- Third row of the ordering scenario. -/
def rowM : Org := newRow "t1" (bName "Mid") "m1" "T0"

/-! ### Helper lemmas about the store operations -/

/-- A lookup scoped by id and tenant misses when no row matches both. -/
theorem selectByIdTenant_none_of (s : Store) (i t : String)
    (h : ∀ o ∈ s, ¬(o.id = i ∧ o.tenant_id = t)) :
    selectByIdTenant s i t = none := by
  rw [selectByIdTenant, List.find?_eq_none]
  intro x hx hp
  simp only [Bool.and_eq_true, beq_iff_eq] at hp
  exact h x hx hp

/-- A missing (id, tenant) pair makes the get route answer 404. -/
theorem getHandler_none (s : Store) (t i : String)
    (h : selectByIdTenant s i t = none) :
    getHandler s t i = (notFound, s) := by
  simp [getHandler, h]

/-- A missing (id, tenant) pair makes the put route answer 404. -/
theorem putHandler_none (s : Store) (t i : String) (b : Body) (now : String)
    (h : selectByIdTenant s i t = none) :
    putHandler s t i b now = (notFound, s) := by
  simp [putHandler, h]

/-- A missing (id, tenant) pair makes the delete route answer 404. -/
theorem deleteHandler_none (s : Store) (t i : String)
    (h : selectByIdTenant s i t = none) :
    deleteHandler s t i = (notFound, s) := by
  simp [deleteHandler, h]

/-- With an existing (id, tenant) row and a valid name, the put route
commits the field replacement to the store. -/
theorem putHandler_store (s : Store) (t i : String) (b : Body) (now : String) (o0 : Org)
    (hex : selectByIdTenant s i t = some o0) (hv : nameInvalid b.name = false) :
    (putHandler s t i b now).2 = updateByIdTenant s i t (applyPut b now) := by
  simp only [putHandler, hex, hv]
  cases h : selectById (updateByIdTenant s i t (applyPut b now)) i <;> simp [h]

/-- With an existing (id, tenant) row and a valid name, the put route
answers 200. -/
theorem putHandler_status (s : Store) (t i : String) (b : Body) (now : String) (o0 : Org)
    (hex : selectByIdTenant s i t = some o0) (hv : nameInvalid b.name = false) :
    (putHandler s t i b now).1.status = 200 := by
  simp only [putHandler, hex, hv]
  cases h : selectById (updateByIdTenant s i t (applyPut b now)) i <;> simp [h]

/-- With a valid name, the post route appends exactly the new row. -/
theorem postHandler_store (s : Store) (t : String) (b : Body) (freshId now : String)
    (hv : nameInvalid b.name = false) :
    (postHandler s t b freshId now).2 = s ++ [newRow t b freshId now] := by
  simp only [postHandler, hv]
  cases h : selectById (s ++ [newRow t b freshId now]) freshId <;> simp [h]

/-- A scoped lookup after a scoped update finds the transformed row,
provided the transformation keeps id and tenant. -/
theorem selectByIdTenant_update (s : Store) (i t : String) (f : Org → Org)
    (hid : ∀ o, (f o).id = o.id) (hten : ∀ o, (f o).tenant_id = o.tenant_id) :
    selectByIdTenant (updateByIdTenant s i t f) i t = (selectByIdTenant s i t).map f := by
  simp only [selectByIdTenant, updateByIdTenant]
  rw [List.find?_map]
  have hpg : ((fun o : Org => o.id == i && o.tenant_id == t) ∘
      (fun o : Org => if o.id == i && o.tenant_id == t then f o else o)) =
      (fun o : Org => o.id == i && o.tenant_id == t) := by
    funext o
    by_cases hm : (o.id == i && o.tenant_id == t) = true
    · simp only [Function.comp_apply, if_pos hm, hid o, hten o]
    · simp only [Function.comp_apply, if_neg hm]
  rw [hpg]
  cases hf : List.find? (fun o : Org => o.id == i && o.tenant_id == t) s with
  | none => rfl
  | some a =>
    have ha := List.find?_some hf
    simp [ha]
    simp only [Bool.and_eq_true, beq_iff_eq] at ha
    intro hcon
    exact absurd ha.2 (hcon ha.1)
/-- C10: on an authenticated PUT whose (id, tenant) pair matches no row,
the response is 404 with store unchanged, whatever the request body, so
the existence check takes priority over name validation. -/
theorem C10_put_notfound_precedence (s : Store) (t i : String) (b : Body) (now : String)
    (habs : selectByIdTenant s i t = none) :
    putHandler s t i b now = (notFound, s) := by
  simp [putHandler, habs]

/-- Witness for C10: a PUT on an empty store with an empty name answers
404, not 400. -/
theorem C10_witness :
    nameInvalid (bName "").name = true ∧
    putHandler [] "t1" "org1" (bName "") "T1" = (notFound, []) :=
  ⟨by decide, C10_put_notfound_precedence [] "t1" "org1" (bName "") "T1" rfl⟩

/-- C8: a request with no Authorization header is rejected with 401 for
every verifier (so no token is decoded), a request whose token fails
verification is rejected with 401, and in both cases the response is a
constant and the store is returned unchanged, so no store operation runs. -/
theorem C8_auth_rejection (verify : String → Option TokenClaims) (req : Req)
    (s : Store) (freshId now : String) :
    handle verify none req s freshId now = (⟨401, .errMsg "No token provided"⟩, s) ∧
    (∀ h : String, verify (dropBearer h) = none →
      handle verify (some h) req s freshId now = (⟨401, .errMsg "Invalid token"⟩, s)) := by
  refine ⟨rfl, ?_⟩
  intro h hv
  simp [handle, hv]

/-- Witness for C8 at a rejecting verifier on a concrete request. -/
theorem C8_witness :
    handle (fun _ => none) none .listOrgs [rowA] "f1" "T1" =
      (⟨401, .errMsg "No token provided"⟩, [rowA]) ∧
    handle (fun _ => none) (some "Bearer bad") .listOrgs [rowA] "f1" "T1" =
      (⟨401, .errMsg "Invalid token"⟩, [rowA]) :=
  ⟨(C8_auth_rejection (fun _ => none) .listOrgs [rowA] "f1" "T1").1,
   (C8_auth_rejection (fun _ => none) .listOrgs [rowA] "f1" "T1").2 "Bearer bad" rfl⟩

/-- C1: a row owned by tenant one is invisible to a caller of a different
tenant: it is absent from the list result, and get, put and delete on its
id answer exactly the same 404 with unchanged store as on an id that no
row has at all. -/
theorem C1_tenant_isolation (s : Store) (o : Org) (t2 absentId : String) (b : Body)
    (now : String) (_ho : o ∈ s) (huniq : ∀ o2 ∈ s, o2.id = o.id → o2 = o)
    (ht : o.tenant_id ≠ t2) (habs : ∀ o2 ∈ s, o2.id ≠ absentId) :
    o ∉ selectByTenant s t2 ∧
    (listHandler s t2).1 = ⟨200, .orgList (selectByTenant s t2)⟩ ∧
    getHandler s t2 o.id = (notFound, s) ∧
    getHandler s t2 o.id = getHandler s t2 absentId ∧
    putHandler s t2 o.id b now = (notFound, s) ∧
    putHandler s t2 o.id b now = putHandler s t2 absentId b now ∧
    deleteHandler s t2 o.id = (notFound, s) ∧
    deleteHandler s t2 o.id = deleteHandler s t2 absentId := by
  have h1 : selectByIdTenant s o.id t2 = none := by
    refine selectByIdTenant_none_of s o.id t2 ?_
    intro x hx hp
    exact ht ((huniq x hx hp.1) ▸ hp.2)
  have h2 : selectByIdTenant s absentId t2 = none := by
    refine selectByIdTenant_none_of s absentId t2 ?_
    intro x hx hp
    exact habs x hx hp.1
  refine ⟨?_, rfl, ?_, ?_, ?_, ?_, ?_, ?_⟩
  · intro hmem
    have hmf := (List.mem_insertionSort nameLe).mp hmem
    have := (List.mem_filter.mp hmf).2
    exact ht (by simpa using this)
  · exact getHandler_none s t2 o.id h1
  · rw [getHandler_none s t2 o.id h1, getHandler_none s t2 absentId h2]
  · exact putHandler_none s t2 o.id b now h1
  · rw [putHandler_none s t2 o.id b now h1, putHandler_none s t2 absentId b now h2]
  · exact deleteHandler_none s t2 o.id h1
  · rw [deleteHandler_none s t2 o.id h1, deleteHandler_none s t2 absentId h2]

/-- Witness for C1 on a two-tenant store. -/
theorem C1_witness :
    rowA ∈ [rowA, rowB] ∧ rowA.tenant_id ≠ "t2" ∧
    (rowA ∉ selectByTenant [rowA, rowB] "t2" ∧
     (listHandler [rowA, rowB] "t2").1 = ⟨200, .orgList (selectByTenant [rowA, rowB] "t2")⟩ ∧
     getHandler [rowA, rowB] "t2" rowA.id = (notFound, [rowA, rowB]) ∧
     getHandler [rowA, rowB] "t2" rowA.id = getHandler [rowA, rowB] "t2" "zzz" ∧
     putHandler [rowA, rowB] "t2" rowA.id (bName "X") "T1" = (notFound, [rowA, rowB]) ∧
     putHandler [rowA, rowB] "t2" rowA.id (bName "X") "T1" =
       putHandler [rowA, rowB] "t2" "zzz" (bName "X") "T1" ∧
     deleteHandler [rowA, rowB] "t2" rowA.id = (notFound, [rowA, rowB]) ∧
     deleteHandler [rowA, rowB] "t2" rowA.id = deleteHandler [rowA, rowB] "t2" "zzz") :=
  ⟨by decide, by decide,
   C1_tenant_isolation [rowA, rowB] rowA "t2" "zzz" (bName "X") "T1"
     (by decide) (by decide) (by decide) (by decide)⟩
/-- C2 counterexample: an authenticated PUT whose name is empty but whose
(id, tenant) pair matches no row fails with 404, not with 400, so the
claim as stated does not hold of update requests on absent rows. -/
theorem C2_counterexample :
    nameInvalid (bName "").name = true ∧
    (putHandler [] "t1" "org1" (bName "") "T1").1.status = 404 ∧
    ¬(putHandler [] "t1" "org1" (bName "") "T1").1.status = 400 := by decide

/-- C2 amended: a create with an absent, empty or whitespace-only name,
and an update with such a name addressing an existing (id, tenant) row,
fail with 400 and leave the store unchanged; a create or update whose name
trims non-empty never answers 400. -/
theorem C2_invalid_name_rejected (s : Store) (t i freshId now : String) (b : Body) :
    (nameInvalid b.name = true →
      postHandler s t b freshId now = (⟨400, .errMsg "Namn krävs"⟩, s) ∧
      (∀ o0, selectByIdTenant s i t = some o0 →
        putHandler s t i b now = (⟨400, .errMsg "Namn krävs"⟩, s))) ∧
    (nameInvalid b.name = false →
      ¬(postHandler s t b freshId now).1.status = 400 ∧
      ¬(putHandler s t i b now).1.status = 400) := by
  constructor
  · intro hv
    refine ⟨by simp [postHandler, hv], ?_⟩
    intro o0 hex
    simp [putHandler, hex, hv]
  · intro hv
    constructor
    · simp only [postHandler, hv]
      cases h : selectById (s ++ [newRow t b freshId now]) freshId <;> simp [h]
    · cases hex : selectByIdTenant s i t with
      | none => simp [putHandler, hex, notFound]
      | some o0 =>
        simp only [putHandler, hex, hv]
        cases h : selectById (updateByIdTenant s i t (applyPut b now)) i <;> simp [h]

/-- Witness for C2: a create with an empty name is rejected with the store
untouched, and a create with a real name is not rejected with 400. -/
theorem C2_witness :
    postHandler [] "t1" (bName "  ") "f1" "T0" = (⟨400, .errMsg "Namn krävs"⟩, []) ∧
    ¬(postHandler [] "t1" (bName "Acme") "f1" "T0").1.status = 400 :=
  ⟨((C2_invalid_name_rejected [] "t1" "x" "f1" "T0" (bName "  ")).1 (by decide)).1,
   ((C2_invalid_name_rejected [] "t1" "x" "f1" "T0" (bName "Acme")).2 (by decide)).1⟩
/-- C3: a successful update commits exactly the scoped field replacement:
id, tenant and creation time of every row are preserved, the update time
is stamped, every mutable field is fully replaced by the body value with
absent optional fields becoming the empty string; and in both create and
update the stored tenant comes from the authenticated caller, the body
having no tenant field at all. -/
theorem C3_update_frame (s : Store) (t i freshId now : String) (b : Body) (o0 : Org)
    (hex : selectByIdTenant s i t = some o0) (hv : nameInvalid b.name = false) :
    (putHandler s t i b now).2 = updateByIdTenant s i t (applyPut b now) ∧
    (∀ o : Org, (applyPut b now o).id = o.id ∧ (applyPut b now o).tenant_id = o.tenant_id ∧
      (applyPut b now o).created_at = o.created_at ∧
      (applyPut b now o).updated_at = some now) ∧
    (∀ o : Org, (applyPut b now o).name = jsTrim (orEmpty b.name) ∧
      (applyPut b now o).org_number = orEmpty b.org_number ∧
      (applyPut b now o).address = orEmpty b.address ∧
      (applyPut b now o).city = orEmpty b.city ∧
      (applyPut b now o).zip = orEmpty b.zip ∧
      (applyPut b now o).phone = orEmpty b.phone ∧
      (applyPut b now o).email = orEmpty b.email ∧
      (applyPut b now o).website = orEmpty b.website ∧
      (applyPut b now o).description = orEmpty b.description) ∧
    orEmpty none = "" ∧
    (postHandler s t b freshId now).2 = s ++ [newRow t b freshId now] ∧
    (newRow t b freshId now).tenant_id = t := by
  refine ⟨putHandler_store s t i b now o0 hex hv, ?_, ?_, rfl,
    postHandler_store s t b freshId now hv, rfl⟩
  · intro o
    exact ⟨rfl, rfl, rfl, rfl⟩
  · intro o
    exact ⟨rfl, rfl, rfl, rfl, rfl, rfl, rfl, rfl, rfl⟩

/-- Witness for C3 on a one-row store. -/
theorem C3_witness :
    selectByIdTenant [rowA] "a1" "t1" = some rowA ∧
    (putHandler [rowA] "t1" "a1" (bName "New") "T1").2 =
      updateByIdTenant [rowA] "a1" "t1" (applyPut (bName "New") "T1") ∧
    (applyPut (bName "New") "T1" rowA).tenant_id = rowA.tenant_id ∧
    (applyPut (bName "New") "T1" rowA).city = orEmpty (bName "New").city :=
  ⟨by decide,
   (C3_update_frame [rowA] "t1" "a1" "f1" "T1" (bName "New") rowA rfl (by decide)).1,
   ((C3_update_frame [rowA] "t1" "a1" "f1" "T1" (bName "New") rowA rfl (by decide)).2.1 rowA).2.1,
   (((C3_update_frame [rowA] "t1" "a1" "f1" "T1" (bName "New") rowA rfl (by decide)).2.2.1 rowA)).2.2.2.1⟩
/-- C4: a valid create under tenant t with a fresh id returns 201 with
exactly the stored row, whose id is the fresh one, tenant is the caller,
update stamp is null and unsupplied optional fields are empty; an
immediate get under t by the returned id answers 200 with the same row. -/
theorem C4_create_get_roundtrip (s : Store) (t freshId now : String) (b : Body)
    (hv : nameInvalid b.name = false) (hfresh : ∀ o ∈ s, o.id ≠ freshId) :
    postHandler s t b freshId now =
      (⟨201, .org (newRow t b freshId now)⟩, s ++ [newRow t b freshId now]) ∧
    getHandler (s ++ [newRow t b freshId now]) t freshId =
      (⟨200, .org (newRow t b freshId now)⟩, s ++ [newRow t b freshId now]) ∧
    (newRow t b freshId now).id = freshId ∧
    (newRow t b freshId now).tenant_id = t ∧
    (newRow t b freshId now).updated_at = none ∧
    (b.org_number = none → (newRow t b freshId now).org_number = "") ∧
    (b.address = none → (newRow t b freshId now).address = "") ∧
    (b.city = none → (newRow t b freshId now).city = "") ∧
    (b.zip = none → (newRow t b freshId now).zip = "") ∧
    (b.phone = none → (newRow t b freshId now).phone = "") ∧
    (b.email = none → (newRow t b freshId now).email = "") ∧
    (b.website = none → (newRow t b freshId now).website = "") ∧
    (b.description = none → (newRow t b freshId now).description = "") := by
  have h1 : List.find? (fun o : Org => o.id == freshId) s = none := by
    rw [List.find?_eq_none]
    intro x hx hp
    exact hfresh x hx (by simpa using hp)
  have h1t : List.find? (fun o : Org => o.id == freshId && o.tenant_id == t) s = none := by
    rw [List.find?_eq_none]
    intro x hx hp
    simp only [Bool.and_eq_true, beq_iff_eq] at hp
    exact hfresh x hx hp.1
  have h2 : selectById (s ++ [newRow t b freshId now]) freshId =
      some (newRow t b freshId now) := by
    rw [selectById, List.find?_append, h1]
    simp [newRow]
  have h3 : selectByIdTenant (s ++ [newRow t b freshId now]) freshId t =
      some (newRow t b freshId now) := by
    rw [selectByIdTenant, List.find?_append, h1t]
    simp [newRow]
  refine ⟨?_, ?_, rfl, rfl, rfl, ?_, ?_, ?_, ?_, ?_, ?_, ?_, ?_⟩
  · simp [postHandler, hv, h2]
  · simp [getHandler, h3]
  all_goals intro h
  all_goals simp [newRow, orEmpty, h]

/-- Witness for C4: the spec scenario, a create of Acme AB in Stockholm
under tenant t1 next to an existing row of tenant t2. -/
theorem C4_witness :
    postHandler [rowB] "t1" bAcme "f1" "T1" =
      (⟨201, .org (newRow "t1" bAcme "f1" "T1")⟩, [rowB] ++ [newRow "t1" bAcme "f1" "T1"]) ∧
    getHandler ([rowB] ++ [newRow "t1" bAcme "f1" "T1"]) "t1" "f1" =
      (⟨200, .org (newRow "t1" bAcme "f1" "T1")⟩, [rowB] ++ [newRow "t1" bAcme "f1" "T1"]) ∧
    (newRow "t1" bAcme "f1" "T1").tenant_id = "t1" ∧
    (newRow "t1" bAcme "f1" "T1").updated_at = none ∧
    (newRow "t1" bAcme "f1" "T1").org_number = "" :=
  ⟨(C4_create_get_roundtrip [rowB] "t1" "f1" "T1" bAcme (by decide) (by decide)).1,
   (C4_create_get_roundtrip [rowB] "t1" "f1" "T1" bAcme (by decide) (by decide)).2.1,
   (C4_create_get_roundtrip [rowB] "t1" "f1" "T1" bAcme (by decide) (by decide)).2.2.2.1,
   (C4_create_get_roundtrip [rowB] "t1" "f1" "T1" bAcme (by decide) (by decide)).2.2.2.2.1,
   (C4_create_get_roundtrip [rowB] "t1" "f1" "T1" bAcme (by decide) (by decide)).2.2.2.2.2.1 rfl⟩
/-- C5: applying the same valid update twice to an existing row answers
200 both times and leaves every stored field of every row as after the
first application, except possibly the update stamp. -/
theorem C5_update_idempotent (s : Store) (t i now1 now2 : String) (b : Body) (o0 : Org)
    (hex : selectByIdTenant s i t = some o0) (hv : nameInvalid b.name = false) :
    (putHandler s t i b now1).1.status = 200 ∧
    (putHandler (putHandler s t i b now1).2 t i b now2).1.status = 200 ∧
    ((putHandler (putHandler s t i b now1).2 t i b now2).2).map eraseUpdatedAt =
      ((putHandler s t i b now1).2).map eraseUpdatedAt := by
  have hid1 : ∀ o : Org, (applyPut b now1 o).id = o.id := fun _ => rfl
  have hten1 : ∀ o : Org, (applyPut b now1 o).tenant_id = o.tenant_id := fun _ => rfl
  have hst1 : (putHandler s t i b now1).2 = updateByIdTenant s i t (applyPut b now1) :=
    putHandler_store s t i b now1 o0 hex hv
  have hex2 : selectByIdTenant (updateByIdTenant s i t (applyPut b now1)) i t =
      some (applyPut b now1 o0) := by
    rw [selectByIdTenant_update s i t (applyPut b now1) hid1 hten1, hex]
    rfl
  refine ⟨putHandler_status s t i b now1 o0 hex hv, ?_, ?_⟩
  · rw [hst1]
    exact putHandler_status _ t i b now2 (applyPut b now1 o0) hex2 hv
  · rw [hst1, putHandler_store _ t i b now2 (applyPut b now1 o0) hex2 hv]
    simp only [updateByIdTenant, List.map_map]
    refine List.map_congr_left ?_
    intro o _
    by_cases hm : (o.id == i && o.tenant_id == t) = true
    · have hm1 : ((applyPut b now1 o).id == i && (applyPut b now1 o).tenant_id == t) = true := hm
      simp only [Function.comp_apply, if_pos hm, if_pos hm1]
      rfl
    · have hm1 : ¬((applyPut b now1 o).id == i && (applyPut b now1 o).tenant_id == t) = true := hm
      simp only [Function.comp_apply, if_neg hm, if_neg hm1]

/-- Witness for C5 on a one-row store. -/
theorem C5_witness :
    (putHandler [rowA] "t1" "a1" (bName "New") "T1").1.status = 200 ∧
    (putHandler (putHandler [rowA] "t1" "a1" (bName "New") "T1").2 "t1" "a1"
      (bName "New") "T2").1.status = 200 ∧
    ((putHandler (putHandler [rowA] "t1" "a1" (bName "New") "T1").2 "t1" "a1"
      (bName "New") "T2").2).map eraseUpdatedAt =
      ((putHandler [rowA] "t1" "a1" (bName "New") "T1").2).map eraseUpdatedAt :=
  C5_update_idempotent [rowA] "t1" "a1" "T1" "T2" (bName "New") rowA rfl (by decide)
/-- C6: deleting an existing (id, tenant) row answers 200 with the ok-true
body and removes every matching row, after which get, update and delete on
that id under the same tenant all answer 404 with unchanged store; a
delete on a missing (id, tenant) pair answers 404 with unchanged store. -/
theorem C6_delete_semantics (s : Store) (t i now : String) (b : Body) (o0 : Org)
    (hex : selectByIdTenant s i t = some o0) :
    deleteHandler s t i = (⟨200, .okTrue⟩, deleteByIdTenant s i t) ∧
    (∀ o ∈ deleteByIdTenant s i t, ¬(o.id = i ∧ o.tenant_id = t)) ∧
    getHandler (deleteByIdTenant s i t) t i = (notFound, deleteByIdTenant s i t) ∧
    putHandler (deleteByIdTenant s i t) t i b now = (notFound, deleteByIdTenant s i t) ∧
    deleteHandler (deleteByIdTenant s i t) t i = (notFound, deleteByIdTenant s i t) ∧
    (∀ s2 : Store, selectByIdTenant s2 i t = none → deleteHandler s2 t i = (notFound, s2)) := by
  have hrm : ∀ o ∈ deleteByIdTenant s i t, ¬(o.id = i ∧ o.tenant_id = t) := by
    intro o hmem hp
    have := (List.mem_filter.mp hmem).2
    simp only [Bool.not_eq_eq_eq_not, Bool.not_true, Bool.and_eq_false_iff,
      beq_eq_false_iff_ne] at this
    rcases this with h | h
    · exact h hp.1
    · exact h hp.2
  have hnone : selectByIdTenant (deleteByIdTenant s i t) i t = none :=
    selectByIdTenant_none_of _ i t hrm
  exact ⟨by simp [deleteHandler, hex], hrm,
    getHandler_none _ t i hnone,
    putHandler_none _ t i b now hnone,
    deleteHandler_none _ t i hnone,
    fun s2 h2 => deleteHandler_none s2 t i h2⟩

/-- Witness for C6 on a two-row store. -/
theorem C6_witness :
    deleteHandler [rowA, rowB] "t1" "a1" =
      (⟨200, .okTrue⟩, deleteByIdTenant [rowA, rowB] "a1" "t1") ∧
    getHandler (deleteByIdTenant [rowA, rowB] "a1" "t1") "t1" "a1" =
      (notFound, deleteByIdTenant [rowA, rowB] "a1" "t1") ∧
    deleteHandler (deleteByIdTenant [rowA, rowB] "a1" "t1") "t1" "a1" =
      (notFound, deleteByIdTenant [rowA, rowB] "a1" "t1") :=
  ⟨(C6_delete_semantics [rowA, rowB] "t1" "a1" "T1" (bName "X") rowA rfl).1,
   (C6_delete_semantics [rowA, rowB] "t1" "a1" "T1" (bName "X") rowA rfl).2.2.1,
   (C6_delete_semantics [rowA, rowB] "t1" "a1" "T1" (bName "X") rowA rfl).2.2.2.2.1⟩

/-- C7: the list route always answers 200 with exactly the rows of the
calling tenant, as a permutation of the tenant filter of the store sorted
ascending by name, and a tenant with no rows receives the empty list. -/
theorem C7_list_ordering (s : Store) (t : String) :
    listHandler s t = (⟨200, .orgList (selectByTenant s t)⟩, s) ∧
    (selectByTenant s t).Perm (s.filter (fun o => o.tenant_id == t)) ∧
    List.Pairwise nameLe (selectByTenant s t) ∧
    (∀ o ∈ selectByTenant s t, o.tenant_id = t) ∧
    (s.filter (fun o => o.tenant_id == t) = [] → listHandler s t = (⟨200, .orgList []⟩, s)) := by
  refine ⟨rfl, List.perm_insertionSort nameLe _, List.sorted_insertionSort nameLe _, ?_, ?_⟩
  · intro o hmem
    have hmf := (List.mem_insertionSort nameLe).mp hmem
    have := (List.mem_filter.mp hmf).2
    simpa using this
  · intro hf
    simp [listHandler, selectByTenant, hf]

/-- Witness for C7: the Zeta, Alpha, Mid scenario comes back in ascending
name order, and a tenant with no rows receives the empty list. -/
theorem C7_witness :
    (selectByTenant [rowZ, rowAl, rowM] "t1").map Org.name = ["Alpha", "Mid", "Zeta"] ∧
    List.Pairwise nameLe (selectByTenant [rowZ, rowAl, rowM] "t1") ∧
    listHandler [rowZ, rowAl, rowM] "t9" = (⟨200, .orgList []⟩, [rowZ, rowAl, rowM]) :=
  ⟨by decide,
   (C7_list_ordering [rowZ, rowAl, rowM] "t1").2.2.1,
   (C7_list_ordering [rowZ, rowAl, rowM] "t9").2.2.2.2 (by decide)⟩
